import Mathlib

/-!
Verification of the Line series component (cartesian/Line.tsx) and its
registrar (state/SetCartesianGraphicalItem.ts).

JavaScript numbers are modelled as exact rationals; JS values that may be
null or undefined are modelled with a dedicated inductive type; code that
can throw is modelled with Option (none = an exception escapes).
-/

/-- A JavaScript value as far as the Line component inspects it:
null, undefined, a number, or NaN. -/
inductive JsVal
  | null
  | undefined
  | num (q : ℚ)
  | nan
deriving DecidableEq, Repr

/-- Modelled from the spec: lodash isNil — a value counts as absent exactly
when it is null or undefined (zero and NaN are not absent). -/
def isNil : JsVal → Bool
  | JsVal.null => true
  | JsVal.undefined => true
  | JsVal.num _ => false
  | JsVal.nan => false

/-- JS Math.trunc-style truncation used by the remainder operator:
rounds toward zero. -/
def jsTrunc (q : ℚ) : ℤ := if 0 ≤ q then ⌊q⌋ else ⌈q⌉

/-- The JS remainder operator a % b for b ≠ 0: the remainder has the sign
of the dividend, a - b * trunc(a / b). -/
def jsMod (a b : ℚ) : ℚ := a - b * (jsTrunc (a / b) : ℚ)

/-- JS Array.prototype.reduce with no initial value: throws (none) on an
empty array, otherwise folds the addition from the first element.
Mirrors lines.reduce((pre, next) => pre + next) in getStrokeDasharray. -/
def jsReduceSum : List ℚ → Option ℚ
  | [] => none
  | x :: xs => some (xs.foldl (fun pre next => pre + next) x)

/-- Source function repeat (Line.tsx lines 135-144): pad the pattern with a
trailing zero when its length is odd, then concatenate count copies. -/
def repeatLines (lines : List ℚ) (count : ℕ) : List ℚ :=
  let linesUnit := if lines.length % 2 ≠ 0 then lines ++ [0] else lines
  (List.replicate count linesUnit).flatten

/-- Source function generateSimpleStrokeDasharray (Line.tsx lines 146-148),
with the output string abstracted to its list of px numbers:
"length px (totalLength - length) px". -/
def generateSimpleStrokeDasharray (totalLength length : ℚ) : List ℚ :=
  [length, totalLength - length]

/-- The for-loop of getStrokeDasharray (Line.tsx lines 163-168) computing
remainLines: walking the pattern with a running sum, it stops at the first
segment whose inclusion would exceed remainLength and replaces it with the
leftover distance. Returns none when the loop never breaks (in the source
remainLines then stays []). -/
def remainLinesGo (remainLength : ℚ) : List ℚ → ℚ → Option (List ℚ)
  | [], _ => none
  | l :: ls, sum =>
      if remainLength < sum + l then some [remainLength - sum]
      else (remainLinesGo remainLength ls (sum + l)).map (fun res => l :: res)

/-- remainLines as in the source: the loop result, or [] when the loop
never broke. -/
def remainLines (remainLength : ℚ) (lines : List ℚ) : List ℚ :=
  (remainLinesGo remainLength lines 0).getD []

/-- Source function getStrokeDasharray (Line.tsx lines 150-173), with the
output string abstracted to its list of px numbers. Returns none when the
JS code would throw (reduce of an empty array with no initial value). -/
def getStrokeDasharray (length totalLength : ℚ) (lines : List ℚ) : Option (List ℚ) :=
  match jsReduceSum lines with
  | none => none
  | some lineLength =>
    if lineLength = 0 then
      some (generateSimpleStrokeDasharray totalLength length)
    else
      let count : ℤ := ⌊length / lineLength⌋
      let remainLength : ℚ := jsMod length lineLength
      let restLength : ℚ := totalLength - length
      let rl : List ℚ := remainLines remainLength lines
      let emptyLines : List ℚ := if rl.length % 2 = 0 then [0, restLength] else [restLength]
      some (repeatLines lines count.toNat ++ rl ++ emptyLines)

theorem foldl_add_eq (xs : List ℚ) (a : ℚ) :
    xs.foldl (fun pre next => pre + next) a = a + xs.sum := by
  induction xs generalizing a with
  | nil => simp
  | cons x xs ih => simp [ih, add_assoc]

theorem jsReduceSum_cons (x : ℚ) (xs : List ℚ) :
    jsReduceSum (x :: xs) = some ((x :: xs).sum) := by
  simp [jsReduceSum, foldl_add_eq]

theorem repeatLines_sum (lines : List ℚ) (n : ℕ) :
    (repeatLines lines n).sum = (n : ℚ) * lines.sum := by
  unfold repeatLines
  by_cases h : lines.length % 2 ≠ 0 <;>
    simp [h, List.sum_flatten, List.map_replicate, List.sum_replicate, nsmul_eq_mul]

theorem remainLinesGo_sum (r : ℚ) :
    ∀ (ls : List ℚ) (s0 : ℚ) (res : List ℚ),
      remainLinesGo r ls s0 = some res → res.sum = r - s0 := by
  intro ls
  induction ls with
  | nil => intro s0 res h; simp [remainLinesGo] at h
  | cons l ls ih =>
      intro s0 res h
      unfold remainLinesGo at h
      by_cases hc : r < s0 + l
      · simp [hc] at h
        subst h; simp
      · simp [hc] at h
        obtain ⟨res', hres', rfl⟩ := h
        have := ih (s0 + l) res' hres'
        simp [this]; ring

theorem remainLinesGo_isSome (r : ℚ) :
    ∀ (ls : List ℚ) (s0 : ℚ), s0 ≤ r → r < s0 + ls.sum →
      (remainLinesGo r ls s0).isSome = true := by
  intro ls
  induction ls with
  | nil => intro s0 h1 h2; simp at h2; exact absurd h1 (not_le.mpr h2)
  | cons l ls ih =>
      intro s0 h1 h2
      unfold remainLinesGo
      by_cases hc : r < s0 + l
      · simp [hc]
      · have hle : s0 + l ≤ r := not_lt.mp hc
        have hlt : r < (s0 + l) + ls.sum := by
          simp at h2; linarith [h2]
        have := ih (s0 + l) hle hlt
        simp [hc]
        exact Option.isSome_map' (f := fun res => l :: res) ▸ (by
          cases hgo : remainLinesGo r ls (s0 + l) with
          | none => rw [hgo] at this; simp at this
          | some res => simp)

theorem remainLines_sum_of_lt (r : ℚ) (ls : List ℚ)
    (h0 : 0 ≤ r) (h1 : r < ls.sum) : (remainLines r ls).sum = r := by
  unfold remainLines
  have hs := remainLinesGo_isSome r ls 0 h0 (by simpa using h1)
  cases hgo : remainLinesGo r ls 0 with
  | none => rw [hgo] at hs; simp at hs
  | some res =>
      have := remainLinesGo_sum r ls 0 res hgo
      simp [hgo, this]

theorem jsMod_eq_floor (L S : ℚ) (hL : 0 ≤ L) (hS : 0 < S) :
    jsMod L S = L - S * (⌊L / S⌋ : ℚ) := by
  unfold jsMod jsTrunc
  have : 0 ≤ L / S := div_nonneg hL hS.le
  simp [this]

theorem jsMod_nonneg (L S : ℚ) (hL : 0 ≤ L) (hS : 0 < S) : 0 ≤ jsMod L S := by
  rw [jsMod_eq_floor L S hL hS]
  have hfr : jsMod L S = S * Int.fract (L / S) := by
    rw [jsMod_eq_floor L S hL hS, Int.fract]
    field_simp
  rw [← jsMod_eq_floor L S hL hS, hfr]
  exact mul_nonneg hS.le (Int.fract_nonneg _)

theorem jsMod_lt (L S : ℚ) (hL : 0 ≤ L) (hS : 0 < S) : jsMod L S < S := by
  have hfr : jsMod L S = S * Int.fract (L / S) := by
    rw [jsMod_eq_floor L S hL hS, Int.fract]
    field_simp
  rw [hfr]
  calc S * Int.fract (L / S) < S * 1 := by
        exact mul_lt_mul_of_pos_left (Int.fract_lt_one _) hS
    _ = S := mul_one S

theorem emptyLines_sum (rl : List ℚ) (restLength : ℚ) :
    (if rl.length % 2 = 0 then [(0 : ℚ), restLength] else [restLength]).sum = restLength := by
  by_cases h : rl.length % 2 = 0 <;> simp [h]

/-- Core dasharray correctness: for a non-empty pattern with positive sum and
0 ≤ length ≤ totalLength, the produced segments sum to totalLength. -/
theorem getStrokeDasharray_total (L T : ℚ) (lines : List ℚ)
    (hne : lines ≠ []) (hpos : 0 < lines.sum) (hL : 0 ≤ L) :
    ∃ segs, getStrokeDasharray L T lines = some segs ∧ segs.sum = T := by
  obtain ⟨x, xs, rfl⟩ := List.exists_cons_of_ne_nil hne
  unfold getStrokeDasharray
  rw [jsReduceSum_cons]
  set S : ℚ := (x :: xs).sum with hS
  have hS0 : ¬(S = 0) := ne_of_gt hpos
  simp only [hS0, if_false]
  refine ⟨_, rfl, ?_⟩
  have hcount0 : (0 : ℤ) ≤ ⌊L / S⌋ := Int.floor_nonneg.mpr (div_nonneg hL hpos.le)
  have hr := jsMod_eq_floor L S hL hpos
  have hr0 := jsMod_nonneg L S hL hpos
  have hrS := jsMod_lt L S hL hpos
  rw [List.sum_append, List.sum_append, repeatLines_sum,
      remainLines_sum_of_lt _ _ hr0 (lt_of_lt_of_le hrS (le_refl _)),
      emptyLines_sum]
  have htoNat : ((⌊L / S⌋.toNat : ℕ) : ℚ) = (⌊L / S⌋ : ℚ) := by
    have := Int.toNat_of_nonneg hcount0
    exact_mod_cast congrArg (fun z : ℤ => (z : ℚ)) this
  rw [htoNat, hr]
  ring

/-- Throwing case of the dasharray calculator: an empty pattern makes the
initial reduce throw, so no string is produced. -/
theorem getStrokeDasharray_nil (L T : ℚ) :
    getStrokeDasharray L T [] = none := rfl

/-- Zero-sum case of the dasharray calculator: a non-empty pattern summing to
zero falls back to the simple two-segment output. -/
theorem getStrokeDasharray_zero_sum (L T : ℚ) (lines : List ℚ)
    (hne : lines ≠ []) (hz : lines.sum = 0) :
    getStrokeDasharray L T lines = some (generateSimpleStrokeDasharray T L) := by
  obtain ⟨x, xs, rfl⟩ := List.exists_cons_of_ne_nil hne
  unfold getStrokeDasharray
  rw [jsReduceSum_cons, hz]
  simp

/-- With zero total path length and zero drawn length the produced segments
always sum to zero (solid line per SVG dasharray semantics). -/
theorem getStrokeDasharray_zero_zero (lines : List ℚ) (hne : lines ≠ []) :
    ∃ segs, getStrokeDasharray 0 0 lines = some segs ∧ segs.sum = 0 := by
  obtain ⟨x, xs, rfl⟩ := List.exists_cons_of_ne_nil hne
  unfold getStrokeDasharray
  rw [jsReduceSum_cons]
  set S : ℚ := (x :: xs).sum with hS
  by_cases hS0 : S = 0
  · simp [hS0, generateSimpleStrokeDasharray]
  · simp only [hS0, if_false]
    refine ⟨_, rfl, ?_⟩
    have hmod : jsMod 0 S = 0 := by
      unfold jsMod jsTrunc
      simp
    have hcount : (⌊(0 : ℚ) / S⌋ : ℤ) = 0 := by simp
    rw [List.sum_append, List.sum_append, repeatLines_sum, hcount, hmod]
    have hrlsum : (remainLines 0 (x :: xs)).sum = 0 := by
      unfold remainLines
      cases hgo : remainLinesGo 0 (x :: xs) 0 with
      | none => simp
      | some res =>
          have := remainLinesGo_sum 0 (x :: xs) 0 res hgo
          simp [this]
    rw [hrlsum, emptyLines_sum]
    simp

/-- C1: for every dash pattern given as a non-empty list of numbers with
positive sum, and every target drawn length L with 0 ≤ L ≤ T =
totalPathLength, the segments of the dasharray returned by
getStrokeDasharray(L, T, pattern) — its px numbers, the final implied gap
included — sum exactly to T. -/
theorem line_c1_dasharray_sums_to_total (L T : ℚ) (lines : List ℚ)
    (hne : lines ≠ []) (hpos : 0 < lines.sum) (hL : 0 ≤ L) (hLT : L ≤ T) :
    ∃ segs, getStrokeDasharray L T lines = some segs ∧ segs.sum = T :=
  getStrokeDasharray_total L T lines hne hpos hL

/-- C1 witness: pattern [2, 1], drawn length 4 of total 10. -/
theorem line_c1_dasharray_sums_to_total_witness :
    ∃ segs, getStrokeDasharray 4 10 [2, 1] = some segs ∧ segs.sum = 10 :=
  line_c1_dasharray_sums_to_total 4 10 [2, 1] (by decide)
    (by norm_num) (by norm_num) (by norm_num)

/-- C3 counterexample: on the empty pattern the source code does not return
the simple two-segment string; the initial reduce call throws (none), so
getStrokeDasharray(5, 5, []) differs from the claimed "5px 0px" output. -/
theorem line_c3_empty_pattern_throws_cex :
    getStrokeDasharray 5 5 [] = none ∧
    generateSimpleStrokeDasharray 5 5 = [5, 0] ∧
    (none : Option (List ℚ)) ≠ some (generateSimpleStrokeDasharray 5 5) := by
  refine ⟨rfl, by norm_num [generateSimpleStrokeDasharray], by simp⟩

/-- C3 (amended): if the dash pattern list is NON-EMPTY and its elements sum
to zero, getStrokeDasharray(L, T, pattern) returns the simple two-segment
output L px, (T - L) px; in particular dasharray(T, T, pattern) equals
T px, 0 px. (The empty pattern instead makes the JS reduce throw.) -/
theorem line_c3_zero_sum_simple (L T : ℚ) (lines : List ℚ)
    (hne : lines ≠ []) (hz : lines.sum = 0) :
    getStrokeDasharray L T lines = some (generateSimpleStrokeDasharray T L) ∧
    generateSimpleStrokeDasharray T L = [L, T - L] ∧
    getStrokeDasharray T T lines = some [T, 0] := by
  refine ⟨getStrokeDasharray_zero_sum L T lines hne hz, rfl, ?_⟩
  rw [getStrokeDasharray_zero_sum T T lines hne hz]
  simp [generateSimpleStrokeDasharray]

/-- C3 witness: pattern [0], drawn length 3 of total 5. -/
theorem line_c3_zero_sum_simple_witness :
    getStrokeDasharray 3 5 [0] = some (generateSimpleStrokeDasharray 5 3) ∧
    generateSimpleStrokeDasharray 5 3 = [3, 5 - 3] ∧
    getStrokeDasharray 5 5 [0] = some [5, 0] :=
  line_c3_zero_sum_simple 3 5 [0] (by decide) (by norm_num)

/-- Source interface LinePointItem (Line.tsx lines 36-39): one curve point.
Coordinates are null (none) when the underlying value is absent; payload is
the originating record. -/
structure LinePointItem (α : Type) where
  x : Option ℚ
  y : Option ℚ
  value : JsVal
  payload : α
deriving DecidableEq

/-- Modelled from the spec: interpolateNumber from util/DataUtils (not part
of the excerpt) is the linear interpolation lerp(a, b, t) = a + (b - a)t. -/
def interpolateNumber (a b t : ℚ) : ℚ := a + (b - a) * t

/-- JS numeric coercion applied to a possibly-null coordinate when it is fed
into arithmetic: null coerces to 0. -/
def jsCoerceNum (v : Option ℚ) : ℚ := v.getD 0

/-- Truthiness of the literal `undefined` used as the condition of the morph
branch in AnimatedCurve (Line.tsx line 257): undefined is falsy in JS. -/
def jsUndefinedTruthy : Bool := false

/-- One frame produced by the animated curve child function: the point set
handed to the curve primitive plus its stroke-dasharray (as px numbers). -/
structure Frame (α : Type) where
  points : List (LinePointItem α)
  strokeDasharray : Option (List ℚ)

/-- The stepData map of the (dead) morph branch of AnimatedCurve
(Line.tsx lines 258-276): per index, interpolate from the proportionally
remapped previous point when one exists, else synthesize an off-screen
origin when animateNewValues is set, else keep the point unchanged. -/
def morphStepFrom (prevPoints : List (LinePointItem α)) (factor : ℚ)
    (animateNewValues : Bool) (width height t : ℚ) :
    ℕ → List (LinePointItem α) → List (LinePointItem α)
  | _, [] => []
  | i, entry :: rest =>
      let prevPointIndex := (⌊(i : ℚ) * factor⌋).toNat
      (match prevPoints.get? prevPointIndex with
       | some prev =>
          { entry with
            x := some (interpolateNumber (jsCoerceNum prev.x) (jsCoerceNum entry.x) t),
            y := some (interpolateNumber (jsCoerceNum prev.y) (jsCoerceNum entry.y) t) }
       | none =>
          if animateNewValues then
            { entry with
              x := some (interpolateNumber (width * 2) (jsCoerceNum entry.x) t),
              y := some (interpolateNumber (height / 2) (jsCoerceNum entry.y) t) }
          else { entry with x := entry.x, y := entry.y }) ::
        morphStepFrom prevPoints factor animateNewValues width height t (i + 1) rest

/-- The render-child of AnimatedCurve (Line.tsx lines 253-312) as a function
of the progress fraction t. The strokeDasharray prop is modelled already
parsed into its px numbers (none = prop absent or empty string, both falsy).
Returns none when the JS code would throw. In the source the morph branch is
guarded by the literal condition undefined; prevPoints (possibly null) is
only read inside that dead branch. -/
def animatedCurveFrame (strokeDasharray : Option (List ℚ)) (animateNewValues : Bool)
    (width height totalLength : ℚ) (currentPoints : List (LinePointItem α))
    (prevPoints : Option (List (LinePointItem α))) (t : ℚ) : Option (Frame α) :=
  if jsUndefinedTruthy then
    let prevList := prevPoints.getD []
    let prevPointsDiffFactor : ℚ := (prevList.length : ℚ) / (currentPoints.length : ℚ)
    some { points := morphStepFrom prevList prevPointsDiffFactor animateNewValues
                       width height t 0 currentPoints,
           strokeDasharray := none }
  else
    let curLength := interpolateNumber 0 totalLength t
    match strokeDasharray with
    | some lines =>
        (getStrokeDasharray curLength totalLength lines).map
          (fun segs => { points := currentPoints, strokeDasharray := some segs })
    | none =>
        some { points := currentPoints,
               strokeDasharray := some (generateSimpleStrokeDasharray totalLength curLength) }

theorem getStrokeDasharray_isSome (L T : ℚ) (lines : List ℚ) (hne : lines ≠ []) :
    (getStrokeDasharray L T lines).isSome = true := by
  obtain ⟨x, xs, rfl⟩ := List.exists_cons_of_ne_nil hne
  unfold getStrokeDasharray
  rw [jsReduceSum_cons]
  set S : ℚ := (x :: xs).sum with hS
  by_cases h : S = 0 <;> simp [h]

/-- C2: for every progress fraction t in [0, 1], the animated curve child
outputs the full, final current point sequence together with a
stroke-dasharray computed from the drawn length lerp(0, totalLength, t) —
via getStrokeDasharray for a user dash pattern, else the simple two-segment
dasharray — and its output does not depend on the previous points: the
point-to-point morph branch is never taken. -/
theorem line_c2_animated_full_points {α : Type} (sd : Option (List ℚ))
    (anv : Bool) (w h totalLength : ℚ) (pts : List (LinePointItem α))
    (prev : Option (List (LinePointItem α))) (t : ℚ)
    (ht : 0 ≤ t ∧ t ≤ 1)
    (hsd : sd = none ∨ ∃ l, sd = some l ∧ l ≠ []) :
    (∃ fr, animatedCurveFrame sd anv w h totalLength pts prev t = some fr ∧
      fr.points = pts ∧
      (sd = none →
        fr.strokeDasharray =
          some (generateSimpleStrokeDasharray totalLength (interpolateNumber 0 totalLength t))) ∧
      (∀ l, sd = some l →
        some fr.strokeDasharray =
          (getStrokeDasharray (interpolateNumber 0 totalLength t) totalLength l).map some)) ∧
    (∀ prev', animatedCurveFrame sd anv w h totalLength pts prev' t =
      animatedCurveFrame sd anv w h totalLength pts prev t) := by
  constructor
  · rcases hsd with hnone | ⟨l, hsome, hne⟩
    · subst hnone
      refine ⟨_, rfl, rfl, fun _ => rfl, fun l' hl' => by simp at hl'⟩
    · subst hsome
      have hs := getStrokeDasharray_isSome (interpolateNumber 0 totalLength t) totalLength l hne
      cases hgo : getStrokeDasharray (interpolateNumber 0 totalLength t) totalLength l with
      | none => rw [hgo] at hs; simp at hs
      | some segs =>
          refine ⟨{ points := pts, strokeDasharray := some segs }, ?_, rfl, ?_, ?_⟩
          · simp [animatedCurveFrame, jsUndefinedTruthy, hgo]
          · intro hcon; simp at hcon
          · intro l' hl'
            injection hl' with h2
            subst h2
            simp [hgo]
  · intro prev'
    simp [animatedCurveFrame, jsUndefinedTruthy]

/-- C2 witness: no dash pattern, total length 10, t = 1/2. -/
theorem line_c2_animated_full_points_witness :
    (∃ fr, animatedCurveFrame (α := Unit) none true 100 50 10 [] none (1/2) = some fr ∧
      fr.points = [] ∧
      ((none : Option (List ℚ)) = none →
        fr.strokeDasharray =
          some (generateSimpleStrokeDasharray 10 (interpolateNumber 0 10 (1/2)))) ∧
      (∀ l, (none : Option (List ℚ)) = some l →
        some fr.strokeDasharray =
          (getStrokeDasharray (interpolateNumber 0 10 (1/2)) 10 l).map some)) ∧
    (∀ prev', animatedCurveFrame (α := Unit) none true 100 50 10 [] prev' (1/2) =
      animatedCurveFrame (α := Unit) none true 100 50 10 [] none (1/2)) :=
  line_c2_animated_full_points none true 100 50 10 [] none (1/2)
    ⟨by norm_num, by norm_num⟩ (Or.inl rfl)

/-- The getTotalLength closure of LineWrapper (Line.tsx lines 409-420).
curveDom models pathRef.current: none when the path element is unavailable;
a present element's getTotalLength() call may throw (Except.error) or return
a number. The try/catch catches any throw and returns 0; a missing element
or a falsy measurement also yields 0 via the JS expression
(curveDom && curveDom.getTotalLength && curveDom.getTotalLength()) || 0. -/
def getTotalLength (stateTotalLength : ℚ) (curveDom : Option (Except Unit ℚ)) : ℚ :=
  if stateTotalLength = 0 then
    match curveDom with
    | none => 0
    | some (Except.error _) => 0
    | some (Except.ok v) => if v = 0 then 0 else v
  else stateTotalLength

/-- C7: a DOM path-length measurement that throws, or an unavailable path
element, degrades the measured total length to zero; and with total length
zero the animated rendering still outputs the full current point sequence
with a dasharray whose segments sum to zero — per SVG semantics a solid,
fully drawn stroke — rather than crashing or producing partial output. -/
theorem line_c7_measure_failure_degrades {α : Type}
    (sd : Option (List ℚ)) (anv : Bool) (w h : ℚ)
    (pts : List (LinePointItem α)) (prev : Option (List (LinePointItem α))) (t : ℚ)
    (hsd : sd = none ∨ ∃ l, sd = some l ∧ l ≠ []) :
    getTotalLength 0 none = 0 ∧
    getTotalLength 0 (some (Except.error ())) = 0 ∧
    (∃ fr, animatedCurveFrame sd anv w h 0 pts prev t = some fr ∧
      fr.points = pts ∧
      ∃ segs, fr.strokeDasharray = some segs ∧ segs.sum = 0) := by
  refine ⟨rfl, rfl, ?_⟩
  have hcur : interpolateNumber 0 0 t = 0 := by
    simp [interpolateNumber]
  rcases hsd with hnone | ⟨l, hsome, hne⟩
  · subst hnone
    refine ⟨_, rfl, rfl, ?_⟩
    refine ⟨generateSimpleStrokeDasharray 0 (interpolateNumber 0 0 t), rfl, ?_⟩
    simp [generateSimpleStrokeDasharray, hcur]
  · subst hsome
    obtain ⟨segs, hsegs, hsum⟩ := getStrokeDasharray_zero_zero l hne
    refine ⟨{ points := pts, strokeDasharray := some segs }, ?_, rfl, segs, rfl, hsum⟩
    simp only [animatedCurveFrame, jsUndefinedTruthy, if_false, Bool.false_eq_true]
    rw [hcur]
    simp [hsegs]

/-- C7 witness: no dash pattern, empty point list, t = 1/3. -/
theorem line_c7_measure_failure_degrades_witness :
    getTotalLength 0 none = 0 ∧
    getTotalLength 0 (some (Except.error ())) = 0 ∧
    (∃ fr, animatedCurveFrame (α := Unit) none true 100 50 0 [] none (1/3) = some fr ∧
      fr.points = [] ∧
      ∃ segs, fr.strokeDasharray = some segs ∧ segs.sum = 0) :=
  line_c7_measure_failure_degrades none true 100 50 [] none (1/3) (Or.inl rfl)

/-- Chart layout orientation as inspected by the Line component: the source
tests layout === horizontal and treats everything else as the vertical
arm of the conditional. -/
inductive Layout
  | horizontal
  | vertical
deriving DecidableEq

/-- The body of the displayedData.map arrow function in useComposedLineData
(Line.tsx lines 366-386), for one record at one index. The external helpers
getValueByDataKey (value accessor), the axis scale functions and
getCateCoordinateOfLine (category coordinate from the axis ticks and band
size) are not part of the excerpt and are taken as function parameters. -/
def projectEntry {α : Type} (layout : Layout) (getValueByDataKey : α → String → JsVal)
    (dataKey : String) (xScale yScale : JsVal → ℚ)
    (getCateCoordinateOfLine : List ℚ → ℚ → α → ℕ → ℚ)
    (ticks : List ℚ) (bandSize : ℚ) (entry : α) (index : ℕ) : LinePointItem α :=
  let value := getValueByDataKey entry dataKey
  match layout with
  | Layout.horizontal =>
      { x := some (getCateCoordinateOfLine ticks bandSize entry index),
        y := if isNil value then none else some (yScale value),
        value := value, payload := entry }
  | Layout.vertical =>
      { x := if isNil value then none else some (xScale value),
        y := some (getCateCoordinateOfLine ticks bandSize entry index),
        value := value, payload := entry }

/-- The displayedData.map of useComposedLineData with its running index. -/
def composeLinePointsFrom {α : Type} (layout : Layout)
    (getValueByDataKey : α → String → JsVal) (dataKey : String)
    (xScale yScale : JsVal → ℚ) (getCateCoordinateOfLine : List ℚ → ℚ → α → ℕ → ℚ)
    (ticks : List ℚ) (bandSize : ℚ) : ℕ → List α → List (LinePointItem α)
  | _, [] => []
  | i, entry :: rest =>
      projectEntry layout getValueByDataKey dataKey xScale yScale
        getCateCoordinateOfLine ticks bandSize entry i ::
      composeLinePointsFrom layout getValueByDataKey dataKey xScale yScale
        getCateCoordinateOfLine ticks bandSize (i + 1) rest

/-- The points computed by useComposedLineData (Line.tsx lines 366-386):
each displayed record is projected in display order, starting at index 0. -/
def composeLinePoints {α : Type} (layout : Layout)
    (getValueByDataKey : α → String → JsVal) (dataKey : String)
    (xScale yScale : JsVal → ℚ) (getCateCoordinateOfLine : List ℚ → ℚ → α → ℕ → ℚ)
    (ticks : List ℚ) (bandSize : ℚ) (displayedData : List α) : List (LinePointItem α) :=
  composeLinePointsFrom layout getValueByDataKey dataKey xScale yScale
    getCateCoordinateOfLine ticks bandSize 0 displayedData

theorem composeLinePointsFrom_length {α : Type} (layout : Layout)
    (acc : α → String → JsVal) (dk : String) (xs ys : JsVal → ℚ)
    (gc : List ℚ → ℚ → α → ℕ → ℚ) (ticks : List ℚ) (bs : ℚ) :
    ∀ (data : List α) (i0 : ℕ),
      (composeLinePointsFrom layout acc dk xs ys gc ticks bs i0 data).length = data.length := by
  intro data
  induction data with
  | nil => intro i0; rfl
  | cons e rest ih => intro i0; simp [composeLinePointsFrom, ih]

theorem composeLinePointsFrom_get? {α : Type} (layout : Layout)
    (acc : α → String → JsVal) (dk : String) (xs ys : JsVal → ℚ)
    (gc : List ℚ → ℚ → α → ℕ → ℚ) (ticks : List ℚ) (bs : ℚ) :
    ∀ (data : List α) (i0 i : ℕ),
      (composeLinePointsFrom layout acc dk xs ys gc ticks bs i0 data).get? i =
        (data.get? i).map (fun e => projectEntry layout acc dk xs ys gc ticks bs e (i0 + i)) := by
  intro data
  induction data with
  | nil => intro i0 i; simp [composeLinePointsFrom]
  | cons e rest ih =>
      intro i0 i
      cases i with
      | zero => simp [composeLinePointsFrom]
      | succ j =>
          simp only [composeLinePointsFrom, List.get?_cons_succ, ih (i0 + 1) j]
          have : i0 + 1 + j = i0 + (j + 1) := by omega
          rw [this]

/-- C4: for every record of the displayed dataset whose accessed value is
null or undefined (zero and NaN do not count as absent), the projected point
carries a null value-axis coordinate while its category-axis coordinate is
still computed from the axis ticks and band size; projection returns a point
for every record (the point count equals the record count). -/
theorem line_c4_absent_value_null_coordinate {α : Type}
    (acc : α → String → JsVal) (dataKey : String) (xScale yScale : JsVal → ℚ)
    (gc : List ℚ → ℚ → α → ℕ → ℚ) (ticks : List ℚ) (bandSize : ℚ)
    (data : List α) (i : ℕ) (entry : α) (hget : data.get? i = some entry) :
    (composeLinePoints Layout.horizontal acc dataKey xScale yScale gc ticks bandSize data).length
      = data.length ∧
    (∃ p, (composeLinePoints Layout.horizontal acc dataKey xScale yScale gc ticks bandSize
            data).get? i = some p ∧
      (p.y = none ↔ isNil (acc entry dataKey) = true) ∧
      p.x = some (gc ticks bandSize entry i) ∧
      p.value = acc entry dataKey ∧ p.payload = entry) ∧
    (∃ p, (composeLinePoints Layout.vertical acc dataKey xScale yScale gc ticks bandSize
            data).get? i = some p ∧
      (p.x = none ↔ isNil (acc entry dataKey) = true) ∧
      p.y = some (gc ticks bandSize entry i)) ∧
    isNil (JsVal.num 0) = false ∧ isNil JsVal.nan = false ∧
    isNil JsVal.null = true ∧ isNil JsVal.undefined = true := by
  refine ⟨composeLinePointsFrom_length _ _ _ _ _ _ _ _ data 0, ?_, ?_, rfl, rfl, rfl, rfl⟩
  · refine ⟨projectEntry Layout.horizontal acc dataKey xScale yScale gc ticks bandSize entry i,
      ?_, ?_, rfl, rfl, rfl⟩
    · rw [composeLinePoints, composeLinePointsFrom_get?, hget]
      simp
    · unfold projectEntry
      by_cases h : isNil (acc entry dataKey) = true <;> simp [h]
  · refine ⟨projectEntry Layout.vertical acc dataKey xScale yScale gc ticks bandSize entry i,
      ?_, ?_, rfl⟩
    · rw [composeLinePoints, composeLinePointsFrom_get?, hget]
      simp
    · unfold projectEntry
      by_cases h : isNil (acc entry dataKey) = true <;> simp [h]

/-- C4 witness: one-record dataset holding a null value, identity-style
helper functions; the projected point has a null y and a computed x. -/
theorem line_c4_absent_value_null_coordinate_witness :
    (composeLinePoints Layout.horizontal (fun e _ => e) "k" (fun _ => 0) (fun _ => 0)
      (fun _ _ _ _ => 7) [] 0 [JsVal.null]).length = [JsVal.null].length ∧
    (∃ p, (composeLinePoints Layout.horizontal (fun e _ => e) "k" (fun _ => 0) (fun _ => 0)
            (fun _ _ _ _ => 7) [] 0 [JsVal.null]).get? 0 = some p ∧
      (p.y = none ↔ isNil ((fun (e : JsVal) (_ : String) => e) JsVal.null "k") = true) ∧
      p.x = some 7 ∧
      p.value = JsVal.null ∧ p.payload = JsVal.null) ∧
    (∃ p, (composeLinePoints Layout.vertical (fun e _ => e) "k" (fun _ => 0) (fun _ => 0)
            (fun _ _ _ _ => 7) [] 0 [JsVal.null]).get? 0 = some p ∧
      (p.x = none ↔ isNil ((fun (e : JsVal) (_ : String) => e) JsVal.null "k") = true) ∧
      p.y = some 7) ∧
    isNil (JsVal.num 0) = false ∧ isNil JsVal.nan = false ∧
    isNil JsVal.null = true ∧ isNil JsVal.undefined = true :=
  line_c4_absent_value_null_coordinate (fun e _ => e) "k" (fun _ => 0) (fun _ => 0)
    (fun _ _ _ _ => 7) [] 0 [JsVal.null] 0 JsVal.null rfl

/-- The dot / activeDot configuration value (util/types ActiveDotType):
a boolean, a config object (carrying a className), a render function, or a
React element. All but the boolean false are truthy in JS. -/
inductive ActiveDotType
  | bool (b : Bool)
  | obj (className : String)
  | func
  | element
deriving DecidableEq

/-- JS truthiness of an ActiveDotType value. -/
def dotTruthy : ActiveDotType → Bool
  | ActiveDotType.bool b => b
  | _ => true

/-- What renderDotItem produces: a cloned custom element, the result of a
custom render function, or a default Dot element with its class name.
The marker coordinates cx and cy are retained. -/
inductive DotRendered
  | cloned (cx cy : Option ℚ)
  | custom (cx cy : Option ℚ)
  | dot (className : String) (cx cy : Option ℚ)
deriving DecidableEq

/-- clsx with two arguments as used in renderDotItem: the second class is
appended when non-empty. -/
def clsx2 (a b : String) : String := if b = "" then a else a ++ " " ++ b

/-- Source function renderDotItem (Line.tsx lines 317-330): a valid element
is cloned, a function is invoked, anything else renders a default Dot whose
class merges recharts-line-dot with the config className (empty for a
boolean option). A boolean false still reaches the default Dot branch. -/
def renderDotItem (option : ActiveDotType) (cx cy : Option ℚ) : DotRendered :=
  match option with
  | ActiveDotType.element => DotRendered.cloned cx cy
  | ActiveDotType.func => DotRendered.custom cx cy
  | ActiveDotType.bool _ => DotRendered.dot (clsx2 "recharts-line-dot" "") cx cy
  | ActiveDotType.obj cn => DotRendered.dot (clsx2 "recharts-line-dot" cn) cx cy

/-- The props of the Line component that the modelled rendering logic
reads (Line.tsx Props), with defaults from Line.defaultProps. The
strokeDasharray prop is modelled as its parsed px numbers (none = unset or
empty string, both falsy); errorBarChildren models the ErrorBar children
found by findAllByType, by their dataKey. -/
structure LineProps (α : Type) where
  hide : Bool := false
  dot : ActiveDotType := ActiveDotType.bool true
  isAnimationActive : Bool := true
  animateNewValues : Bool := true
  strokeDasharray : Option (List ℚ) := none
  points : List (LinePointItem α) := []
  dataKey : String := ""
  name : Option String := none
  stroke : String := "#3182bd"
  strokeWidth : ℚ := 1
  fill : String := "#fff"
  legendType : String := "line"
  tooltipType : Option String := none
  unit : Option String := none
  data : List JsVal := []
  xAxisId : ℕ := 0
  yAxisId : ℕ := 0
  errorBarChildren : List String := []

/-- The component-local state of LineWrapper (Line.tsx lines 394-395):
the isAnimationFinished flag and the measured totalLength. -/
structure WrapperState where
  isAnimationFinished : Bool
  totalLength : ℚ
deriving DecidableEq

/-- The state right after mount: useState(true) for isAnimationFinished and
useState(0) for totalLength (Line.tsx lines 394-395). -/
def initialWrapperState : WrapperState :=
  { isAnimationFinished := true, totalLength := 0 }

/-- handleAnimationStart (Line.tsx lines 444-450): clears the finished
flag. -/
def handleAnimationStart (s : WrapperState) : WrapperState :=
  { s with isAnimationFinished := false }

/-- handleAnimationEnd (Line.tsx lines 436-442): sets the finished flag. -/
def handleAnimationEnd (s : WrapperState) : WrapperState :=
  { s with isAnimationFinished := true }

/-- renderDots (Line.tsx lines 525-556): returns nothing while an active
animation has not finished; otherwise one marker per point via
renderDotItem, carrying the point coordinates. -/
def renderDots {α : Type} (props : LineProps α) (st : WrapperState)
    (points : List (LinePointItem α)) : Option (List DotRendered) :=
  if props.isAnimationActive && !st.isAnimationFinished then none
  else some (points.map (fun entry => renderDotItem props.dot entry.x entry.y))

/-- What renderErrorBar emits per ErrorBar child: the child keyed by its
dataKey, supplied with the full point list as data. -/
structure ErrorBarOut (α : Type) where
  dataKey : String
  data : List (LinePointItem α)
deriving DecidableEq

/-- The dataPointFormatter supplied to each ErrorBar child (Line.tsx lines
493-500), with the external getValueByDataKey lookup as a parameter. -/
def dataPointFormatter {α : Type} (getValueByDataKey : α → String → JsVal)
    (dataPoint : LinePointItem α) (formatterDataKey : String) :
    Option ℚ × Option ℚ × JsVal × JsVal :=
  (dataPoint.x, dataPoint.y, dataPoint.value,
    getValueByDataKey dataPoint.payload formatterDataKey)

/-- renderErrorBar (Line.tsx lines 480-523): returns nothing while an
active animation has not finished; otherwise clones every ErrorBar child
with the point list as data. findAllByType always returns an array, which
is truthy in JS, so the !errorBarItems guard never fires. -/
def renderErrorBar {α : Type} (props : LineProps α) (st : WrapperState)
    (points : List (LinePointItem α)) : Option (List (ErrorBarOut α)) :=
  if props.isAnimationActive && !st.isAnimationFinished then none
  else some (props.errorBarChildren.map (fun key => { dataKey := key, data := points }))

/-- The element produced by renderCurve: an animated curve (a frame per
progress fraction) or a static curve with the full point set. -/
inductive CurveRender (α : Type)
  | animated (frame : ℚ → Option (Frame α))
  | static (points : List (LinePointItem α))

/-- renderCurve (Line.tsx lines 452-478): with animation active and a
non-empty point list it renders AnimatedCurve, else StaticCurve with the
full point set. -/
def renderCurve {α : Type} (props : LineProps α) (st : WrapperState)
    (points : List (LinePointItem α)) (prevPoints : Option (List (LinePointItem α)))
    (width height : ℚ) : CurveRender α :=
  if props.isAnimationActive && !points.isEmpty then
    CurveRender.animated (fun t =>
      animatedCurveFrame props.strokeDasharray props.animateNewValues width height
        st.totalLength points prevPoints t)
  else CurveRender.static points

/-- The visual output of one LineWrapper render pass (Line.tsx lines
568-605): the curve (none when suppressed), the dot layer (none when
suppressed or gated), the error-bar layer (none when gated), and whether
the label list is rendered. -/
structure WrapperOut (α : Type) where
  curve : Option (CurveRender α)
  dots : Option (List DotRendered)
  errorBars : Option (List (ErrorBarOut α))
  labels : Bool

/-- LineWrapper rendering (Line.tsx lines 392-606). points prefers the
props.points override when non-empty, else the calculated points (line
405); hasSinglePoint suppresses the curve and forces the dot layer (lines
598, 600); labels are gated on animation (line 601). -/
def lineWrapperRender {α : Type} (props : LineProps α) (st : WrapperState)
    (calculatedPoints : List (LinePointItem α))
    (prevPoints : Option (List (LinePointItem α))) (width height : ℚ) : WrapperOut α :=
  let points := if 0 < props.points.length then props.points else calculatedPoints
  let hasSinglePoint : Bool := points.length == 1
  { curve := if hasSinglePoint then none
             else some (renderCurve props st points prevPoints width height),
    dots := if hasSinglePoint || dotTruthy props.dot then renderDots props st points
            else none,
    errorBars := renderErrorBar props st points,
    labels := !props.isAnimationActive || st.isAnimationFinished }

/-- Concrete props for the C5 counterexample: a single-point instance with
dot set to false and animation active. -/
def c5props : LineProps Unit :=
  { dot := ActiveDotType.bool false,
    isAnimationActive := true,
    points := [{ x := some 1, y := some 2, value := JsVal.num 2, payload := () }] }

/-- C5 counterexample: a rendered instance with exactly one point whose
animation has started but not finished (isAnimationFinished = false, which
handleAnimationStart produces) renders NO dot marker: the dot layer is
none, although the point sequence has exactly one point and the curve is
suppressed. The claim as stated is therefore false for this input. -/
theorem line_c5_single_point_gated_cex :
    (if 0 < c5props.points.length then c5props.points
     else ([] : List (LinePointItem Unit))).length = 1 ∧
    (lineWrapperRender c5props { isAnimationFinished := false, totalLength := 0 }
      [] none 0 0).curve = none ∧
    (lineWrapperRender c5props { isAnimationFinished := false, totalLength := 0 }
      [] none 0 0).dots = none := by
  refine ⟨rfl, rfl, rfl⟩

/-- C5 (amended): for every rendered instance whose point sequence has
exactly one point, the curve element is not rendered, and — provided no
active animation is currently unfinished (isAnimationActive false or
isAnimationFinished true) — a dot marker is rendered at that point even
when the dot prop is false. -/
theorem line_c5_single_point_dot (props : LineProps α) (st : WrapperState)
    (calcPts : List (LinePointItem α)) (prev : Option (List (LinePointItem α)))
    (w h : ℚ)
    (h1 : (if 0 < props.points.length then props.points else calcPts).length = 1)
    (h2 : props.isAnimationActive = false ∨ st.isAnimationFinished = true) :
    (lineWrapperRender props st calcPts prev w h).curve = none ∧
    ∃ p, (if 0 < props.points.length then props.points else calcPts) = [p] ∧
      (lineWrapperRender props st calcPts prev w h).dots =
        some [renderDotItem props.dot p.x p.y] := by
  obtain ⟨p, hp⟩ := List.length_eq_one.mp h1
  have hgate : (props.isAnimationActive && !st.isAnimationFinished) = false := by
    rcases h2 with h | h <;> simp [h]
  refine ⟨?_, p, hp, ?_⟩
  · simp only [lineWrapperRender]
    simp [hp]
  · simp only [lineWrapperRender, renderDots]
    simp [hp, hgate]

/-- C5 witness: one point, dot prop false, no animation pending. -/
theorem line_c5_single_point_dot_witness :
    (lineWrapperRender c5props initialWrapperState [] none 0 0).curve = none ∧
    ∃ p, (if 0 < c5props.points.length then c5props.points
          else ([] : List (LinePointItem Unit))) = [p] ∧
      (lineWrapperRender c5props initialWrapperState [] none 0 0).dots =
        some [renderDotItem c5props.dot p.x p.y] :=
  line_c5_single_point_dot c5props initialWrapperState [] none 0 0 rfl (Or.inr rfl)

/-- C6: renderDots and renderErrorBar return nothing exactly while
isAnimationActive is true and the animation has not finished; with
isAnimationActive false, dots, error bars and labels are all rendered
without gating, whatever the animation state. -/
theorem line_c6_gating {α : Type} (props : LineProps α) (st : WrapperState)
    (pts calcPts : List (LinePointItem α)) (prev : Option (List (LinePointItem α)))
    (w h : ℚ) :
    ((renderDots props st pts = none) ↔
      (props.isAnimationActive = true ∧ st.isAnimationFinished = false)) ∧
    ((renderErrorBar props st pts = none) ↔
      (props.isAnimationActive = true ∧ st.isAnimationFinished = false)) ∧
    (props.isAnimationActive = false →
      renderDots props st pts ≠ none ∧ renderErrorBar props st pts ≠ none ∧
      (lineWrapperRender props st calcPts prev w h).labels = true) := by
  cases hA : props.isAnimationActive <;> cases hF : st.isAnimationFinished <;>
    simp [renderDots, renderErrorBar, lineWrapperRender, hA, hF]

/-- Concrete props for the C6 witness: animation disabled. -/
def c6props : LineProps Unit := { isAnimationActive := false }

/-- C6 witness: with animation disabled, dots, error bars and labels render
on the first pass (initial state) without gating. -/
theorem line_c6_gating_witness :
    renderDots c6props initialWrapperState [] ≠ none ∧
    renderErrorBar c6props initialWrapperState [] ≠ none ∧
    (lineWrapperRender c6props initialWrapperState [] none 0 0).labels = true :=
  (line_c6_gating c6props initialWrapperState [] [] none 0 0).2.2 rfl

/-- C10: immediately after mount isAnimationFinished is initialized to
true, so on the very first render — before any animation start callback —
dots, error bars and labels all render even with isAnimationActive true;
gating only begins once handleAnimationStart clears the flag. -/
theorem line_c10_initial_state_ungated {α : Type} (props : LineProps α)
    (pts calcPts : List (LinePointItem α)) (prev : Option (List (LinePointItem α)))
    (w h : ℚ) :
    initialWrapperState.isAnimationFinished = true ∧
    renderDots props initialWrapperState pts ≠ none ∧
    renderErrorBar props initialWrapperState pts ≠ none ∧
    (lineWrapperRender props initialWrapperState calcPts prev w h).labels = true ∧
    (props.isAnimationActive = true →
      renderDots props (handleAnimationStart initialWrapperState) pts = none) := by
  cases hA : props.isAnimationActive <;>
    simp [renderDots, renderErrorBar, lineWrapperRender, initialWrapperState,
      handleAnimationStart, hA]

/-- Concrete props for the C10 witness: animation active. -/
def c10props : LineProps Unit := { isAnimationActive := true }

/-- C10 witness: once the start callback has cleared the flag, dot
rendering is gated for this animation-active instance. -/
theorem line_c10_initial_state_ungated_witness :
    renderDots c10props (handleAnimationStart initialWrapperState)
      ([] : List (LinePointItem Unit)) = none :=
  (line_c10_initial_state_ungated c10props [] [] none 0 0).2.2.2.2 rfl

/-- The RegistrationRecord announced by SetCartesianGraphicalItem
(SetCartesianGraphicalItem.ts lines 9-17, CartesianGraphicalItemSettings):
the tuple of data, dataKey, hide, stackId, xAxisId, yAxisId, errorBars. -/
structure CartesianGraphicalItemSettings where
  data : List JsVal
  dataKey : String
  hide : Bool
  stackId : Option String
  xAxisId : ℕ
  yAxisId : ℕ
  errorBars : List String
deriving DecidableEq

/-- One legend payload entry as produced for the legend store
(computeLegendPayloadFromAreaData). The payload back-reference to the props
object is not modelled. -/
structure LegendPayload where
  inactive : Bool
  dataKey : String
  type : String
  color : String
  value : String
deriving DecidableEq

/-- JS a || b for an optional string a: the fallback b is used when a is
undefined (none) or the empty string (falsy). -/
def jsOrString (a : Option String) (b : String) : String :=
  match a with
  | some s => if s = "" then b else s
  | none => b

/-- Source function computeLegendPayloadFromAreaData (Line.tsx lines
95-107): one entry with inactive = hide, the dataKey, legendType, stroke
color and name || dataKey as value. -/
def computeLegendPayloadFromAreaData {α : Type} (props : LineProps α) : List LegendPayload :=
  [{ inactive := props.hide,
     dataKey := props.dataKey,
     type := props.legendType,
     color := props.stroke,
     value := jsOrString props.name props.dataKey }]

/-- Modelled from the spec: getTooltipNameProp from util/ChartUtils (not in
the excerpt) falls back to the data key when no name is given. -/
def getTooltipNameProp (name : Option String) (dataKey : String) : String :=
  jsOrString name dataKey

/-- The tooltip entry settings contributed by the Line (getTooltipEntrySettings,
Line.tsx lines 114-131). -/
structure TooltipEntrySettings where
  dataDefinedOnItem : List JsVal
  stroke : String
  strokeWidth : ℚ
  fill : String
  dataKey : String
  name : String
  hide : Bool
  type : Option String
  color : String
  unit : Option String
deriving DecidableEq

/-- Source function getTooltipEntrySettings (Line.tsx lines 114-131). -/
def getTooltipEntrySettings {α : Type} (props : LineProps α) : TooltipEntrySettings :=
  { dataDefinedOnItem := props.data,
    stroke := props.stroke,
    strokeWidth := props.strokeWidth,
    fill := props.fill,
    dataKey := props.dataKey,
    name := getTooltipNameProp props.name props.dataKey,
    hide := props.hide,
    type := props.tooltipType,
    color := props.stroke,
    unit := props.unit }

/-- The output of one Line.render pass (Line.tsx lines 633-656): the
registration record dispatched through SetCartesianGraphicalItem (the
hidden branch only; the visible branch registers through
CartesianGraphicalItemContext, which is outside the excerpt and left
unmodelled as none), the legend payload, the tooltip settings, and the
visual output (none on the hidden branch). -/
structure LineRenderOut (α : Type) where
  registration : Option CartesianGraphicalItemSettings
  legend : List LegendPayload
  tooltip : TooltipEntrySettings
  visual : Option (WrapperOut α)

/-- Line.render (Line.tsx lines 633-656): with hide set it returns only the
registration (hide = true, stackId undefined, errorBars = noErrorBars = []),
the legend payload and the tooltip settings, with no visual output;
otherwise it renders LineWrapper. -/
def lineRender {α : Type} (props : LineProps α) (st : WrapperState)
    (calculatedPoints : List (LinePointItem α))
    (prevPoints : Option (List (LinePointItem α))) (width height : ℚ) : LineRenderOut α :=
  if props.hide then
    { registration := some
        { data := props.data, dataKey := props.dataKey, hide := props.hide,
          stackId := none, xAxisId := props.xAxisId, yAxisId := props.yAxisId,
          errorBars := [] },
      legend := computeLegendPayloadFromAreaData props,
      tooltip := getTooltipEntrySettings props,
      visual := none }
  else
    { registration := none,
      legend := computeLegendPayloadFromAreaData props,
      tooltip := getTooltipEntrySettings props,
      visual := some (lineWrapperRender props st calculatedPoints prevPoints width height) }

/-- C8: with hide = true the component renders no path or dot output
(visual = none), but still registers a RegistrationRecord carrying
hide = true (and stackId undefined, no error bars), contributes a legend
payload with inactive = true, and contributes its tooltip entry settings. -/
theorem line_c8_hidden_registers {α : Type} (props : LineProps α)
    (st : WrapperState) (calcPts : List (LinePointItem α))
    (prev : Option (List (LinePointItem α))) (w h : ℚ)
    (hhide : props.hide = true) :
    (lineRender props st calcPts prev w h).visual = none ∧
    (lineRender props st calcPts prev w h).registration = some
      { data := props.data, dataKey := props.dataKey, hide := true,
        stackId := none, xAxisId := props.xAxisId, yAxisId := props.yAxisId,
        errorBars := [] } ∧
    (lineRender props st calcPts prev w h).legend =
      [{ inactive := true, dataKey := props.dataKey, type := props.legendType,
         color := props.stroke, value := jsOrString props.name props.dataKey }] ∧
    (lineRender props st calcPts prev w h).tooltip = getTooltipEntrySettings props ∧
    (getTooltipEntrySettings props).hide = true := by
  simp [lineRender, computeLegendPayloadFromAreaData, getTooltipEntrySettings, hhide]

/-- Concrete props for the C8 witness: a hidden series. -/
def c8props : LineProps Unit := { hide := true, dataKey := "uv" }

/-- C8 witness: the hidden series registers with hide = true, contributes
an inactive legend payload and tooltip settings, and has no visual
output. -/
theorem line_c8_hidden_registers_witness :
    (lineRender c8props initialWrapperState [] none 0 0).visual = none ∧
    (lineRender c8props initialWrapperState [] none 0 0).registration = some
      { data := c8props.data, dataKey := c8props.dataKey, hide := true,
        stackId := none, xAxisId := c8props.xAxisId, yAxisId := c8props.yAxisId,
        errorBars := [] } ∧
    (lineRender c8props initialWrapperState [] none 0 0).legend =
      [{ inactive := true, dataKey := c8props.dataKey, type := c8props.legendType,
         color := c8props.stroke, value := jsOrString c8props.name c8props.dataKey }] ∧
    (lineRender c8props initialWrapperState [] none 0 0).tooltip =
      getTooltipEntrySettings c8props ∧
    (getTooltipEntrySettings c8props).hide = true :=
  line_c8_hidden_registers c8props initialWrapperState [] none 0 0 rfl

/-- A dispatch made by the registrar effect: addCartesianGraphicalItem or
removeCartesianGraphicalItem with a full RegistrationRecord. -/
inductive RegAction
  | add (r : CartesianGraphicalItemSettings)
  | remove (r : CartesianGraphicalItemSettings)
deriving DecidableEq

/-- Modelled from the spec: the graphical-items store slice (not in the
excerpt) as a multiset of records; add inserts one occurrence, remove
erases one occurrence. -/
def applyRegActions (s : Multiset CartesianGraphicalItemSettings) :
    List RegAction → Multiset CartesianGraphicalItemSettings
  | [] => s
  | RegAction.add r :: rest => applyRegActions (r ::ₘ s) rest
  | RegAction.remove r :: rest => applyRegActions (s.erase r) rest

/-- Modelled from the spec: React effect semantics for the useEffect of
SetCartesianGraphicalItem (SetCartesianGraphicalItem.ts lines 19-24) after
mount. The effect body dispatches add(record); its cleanup dispatches
remove(record). When a re-render leaves every dependency field unchanged
the effect does not re-run; when any field changed, the previous cleanup
runs first (remove previous record) and then the new body runs (add new
record). The final cleanup at unmount removes the current record. -/
def restActions : CartesianGraphicalItemSettings →
    List CartesianGraphicalItemSettings → List RegAction
  | r, [] => [RegAction.remove r]
  | r, rNew :: rest =>
      if rNew = r then restActions r rest
      else RegAction.remove r :: RegAction.add rNew :: restActions rNew rest

/-- The full dispatch trace of one mounted SetCartesianGraphicalItem
lifetime: mount with record r, then the given sequence of re-render record
values, then unmount. -/
def lifecycleActions (r : CartesianGraphicalItemSettings)
    (updates : List CartesianGraphicalItemSettings) : List RegAction :=
  RegAction.add r :: restActions r updates

theorem restActions_apply :
    ∀ (updates : List CartesianGraphicalItemSettings)
      (r : CartesianGraphicalItemSettings)
      (t : Multiset CartesianGraphicalItemSettings),
      applyRegActions (r ::ₘ t) (restActions r updates) = t := by
  intro updates
  induction updates with
  | nil =>
      intro r t
      simp [restActions, applyRegActions, Multiset.erase_cons_head]
  | cons rNew rest ih =>
      intro r t
      unfold restActions
      by_cases h : rNew = r
      · subst h
        simp only [if_true]
        exact ih rNew t
      · simp only [h, if_false]
        show applyRegActions ((r ::ₘ t).erase r) (RegAction.add rNew :: restActions rNew rest) = t
        rw [Multiset.erase_cons_head]
        show applyRegActions (rNew ::ₘ t) (restActions rNew rest) = t
        exact ih rNew t

/-- C9: over a full mounted lifetime, the registrar first adds the mount
record; on every dependency change the previous record is removed before
the new one is added; and after the unmount removal the store is exactly
what it was before the mount — no record of this instance remains. -/
theorem line_c9_registrar_lifecycle
    (r : CartesianGraphicalItemSettings)
    (updates : List CartesianGraphicalItemSettings)
    (store : Multiset CartesianGraphicalItemSettings) :
    (lifecycleActions r updates).head? = some (RegAction.add r) ∧
    applyRegActions store (lifecycleActions r updates) = store ∧
    (∀ rNew rest, rNew ≠ r →
      (lifecycleActions r (rNew :: rest)).take 3 =
        [RegAction.add r, RegAction.remove r, RegAction.add rNew]) := by
  refine ⟨rfl, ?_, ?_⟩
  · show applyRegActions (r ::ₘ store) (restActions r updates) = store
    exact restActions_apply updates r store
  · intro rNew rest hne
    simp [lifecycleActions, restActions, hne]

/-- Concrete records for the C9 witness: same identity, hide toggled. -/
def c9rec0 : CartesianGraphicalItemSettings :=
  { data := [], dataKey := "uv", hide := false, stackId := none,
    xAxisId := 0, yAxisId := 0, errorBars := [] }

/-- The C9 witness record after an update (hide becomes true). -/
def c9rec1 : CartesianGraphicalItemSettings :=
  { data := [], dataKey := "uv", hide := true, stackId := none,
    xAxisId := 0, yAxisId := 0, errorBars := [] }

/-- C9 witness: a mount with c9rec0, one update to c9rec1 and the unmount
leave an empty store empty, start with the add, and order the update as
remove-then-add. -/
theorem line_c9_registrar_lifecycle_witness :
    (lifecycleActions c9rec0 [c9rec1]).head? = some (RegAction.add c9rec0) ∧
    applyRegActions 0 (lifecycleActions c9rec0 [c9rec1]) = 0 ∧
    ((lifecycleActions c9rec0 [c9rec1]).take 3 =
      [RegAction.add c9rec0, RegAction.remove c9rec0, RegAction.add c9rec1]) := by
  obtain ⟨h1, h2, h3⟩ := line_c9_registrar_lifecycle c9rec0 [c9rec1] 0
  exact ⟨h1, h2, h3 c9rec1 [] (by decide)⟩
